import Mathlib

/-!
Shallow embedding of the `dcrdtest` node supervisor (`node.go` of
matheusd/dcrtest).

The node supervisor launches a `dcrd` child process, drains its
stdout/stderr, consumes IPC "bound address" events from a pipe until both
the P2P and RPC addresses are known, and tears the process down with a
two-tier stop protocol.

Modelling conventions:
* Outcomes of external calls (pipe creation, `cmd.Start`, pipe `close`,
  `Process.Signal`, `cmd.Wait`, context cancellation) are supplied by
  explicit environment records (`StartEnv`, `StopEnv`, `CertEnv`).
* The byte streams read by `nextIPCMessage` are modelled as the list of
  messages successfully decoded before the first read error (end-of-stream
  or decode failure); a read past the end of the list returns that error.
* Resource accounting (goroutine spawns, `wg.Add`, `wg.Wait`, pipe closes,
  signals) is recorded as a trace of primitive actions `Act`, in source
  order.  A background task is *joined before return* exactly when it was
  registered in the wait group and a `wg.Wait` occurs in the trace: the
  wait group is the only termination synchronisation in the source, so in
  this model "guaranteed terminated when the call returns" = "joined".
-/

namespace DcrdTest

/-- OS-level error values are opaque strings in this model. -/
abbrev Err := String

/-- Events decoded from the IPC stream (`boundP2PListenAddrEvent`,
`boundRPCListenAddrEvent`); `other` stands for any message of a kind the
address loop's `switch` ignores. -/
inductive IPCMsg
  | boundP2P (addr : String)
  | boundRPC (addr : String)
  | other
deriving DecidableEq, Repr

/-- The addresses carried by the messages of a stream, in order. -/
def msgAddrs : IPCMsg → List String
  | .boundP2P a => [a]
  | .boundRPC a => [a]
  | .other => []

/-- All addresses carried by a list of IPC messages. -/
def streamAddrs : List IPCMsg → List String
  | [] => []
  | m :: rest => msgAddrs m ++ streamAddrs rest

/-- The local `p2pAddr` / `rpcAddr` variables of the IPC goroutine spawned
by `node.start` (node.go line 277). -/
structure AddrState where
  p2pAddr : String
  rpcAddr : String
deriving DecidableEq, Repr

/-- The `switch` of the IPC goroutine (node.go lines 286-293): a bound-P2P
event overwrites `p2pAddr`, a bound-RPC event overwrites `rpcAddr`, any
other message kind leaves both untouched. -/
def applyMsg (s : AddrState) (m : IPCMsg) : AddrState :=
  match m with
  | .boundP2P a => { s with p2pAddr := a }
  | .boundRPC a => { s with rpcAddr := a }
  | .other => s

/-- Outcome of the first loop of the IPC goroutine (node.go lines 280-298):
either it saw both addresses and closed `gotSubsysAddrs` (`signaled`), or a
read returned an error first and the goroutine returned (`failed`).
`reads` counts calls to `nextIPCMessage` on `pipeTX.r`, the failing one
included. -/
inductive Phase1
  | signaled (st : AddrState) (reads : Nat)
  | failed (st : AddrState) (reads : Nat)
deriving DecidableEq, Repr

/-- The first loop of the IPC goroutine (node.go lines 280-298): read a
message from `config.pipeTX.r`, apply the `switch`, and stop as soon as
both `p2pAddr` and `rpcAddr` are non-empty (closing `gotSubsysAddrs`);
a read error ends the goroutine. -/
def addrLoop (st : AddrState) (msgs : List IPCMsg) (reads : Nat) : Phase1 :=
  match msgs with
  | [] => .failed st (reads + 1)
  | m :: rest =>
    let st2 := applyMsg st m
    if st2.p2pAddr ≠ "" ∧ st2.rpcAddr ≠ "" then .signaled st2 (reads + 1)
    else addrLoop st2 rest (reads + 1)

/-- Summary of one full run of the IPC goroutine of `node.start`
(node.go lines 278-306). `txReads` counts reads on `config.pipeTX.r`
during address discovery; `drainTxReads` / `drainRxReads` count the reads
the post-discovery drain loop performs on `config.pipeTX.r` and
`config.pipeRX.r` respectively. -/
structure IPCTaskRun where
  signaled : Bool
  st : AddrState
  txReads : Nat
  drainTxReads : Nat
  drainRxReads : Nat
deriving DecidableEq, Repr

/-- The IPC goroutine of `node.start` (node.go lines 278-306), as a function
of the two decoded streams: `txMsgs` are the messages readable from
`config.pipeTX.r` before its first read error, `rxMsgs` those readable from
`config.pipeRX.r`.  After the address loop signals, the drain loop
(lines 300-305) repeatedly calls `nextIPCMessage(n.config.pipeRX.r)` until
it returns an error; it performs no further read on `pipeTX.r`. -/
def ipcTask (txMsgs rxMsgs : List IPCMsg) : IPCTaskRun :=
  match addrLoop ⟨"", ""⟩ txMsgs 0 with
  | .failed st r => ⟨false, st, r, 0, 0⟩
  | .signaled st r => ⟨true, st, r, 0, rxMsgs.length + 1⟩

/-- The background tasks `node.start` spawns: the stderr drain
(node.go line 225), the stdout drain (line 253) and the IPC-event task
(line 278). -/
inductive BgTask
  | stderrDrain
  | stdoutDrain
  | ipcEvents
deriving DecidableEq, Repr

/-- OS signals sent by `node.stop` (node.go lines 360-362). -/
inductive Sig
  | interrupt
  | kill
deriving DecidableEq, Repr

/-- Primitive resource / synchronisation actions performed by `start` and
`stop`, recorded in source order. -/
inductive Act
  | spawn (t : BgTask)
  | wgAdd (t : BgTask)
  | wgWait
  | cmdStart (ok : Bool)
  | setCmd
  | clearCmd
  | closeTX
  | closeRX
  | sendSignal (s : Sig)
  | cmdWait
  | setAddrs (p2p rpc : String)
deriving DecidableEq, Repr

/-- The tasks spawned (as goroutines) in a trace. -/
def spawnedTasks (tr : List Act) : List BgTask :=
  tr.filterMap fun a => match a with | .spawn t => some t | _ => none

/-- The tasks registered in the `sync.WaitGroup` in a trace. -/
def wgTasks (tr : List Act) : List BgTask :=
  tr.filterMap fun a => match a with | .wgAdd t => some t | _ => none

/-- The tasks whose termination is awaited before the call returns: the
wait-group members, provided a `wg.Wait` occurs; the wait group is the only
join primitive in the source. -/
def joinedTasks (tr : List Act) : List BgTask :=
  if Act.wgWait ∈ tr then wgTasks tr else []

/-- The observable state of a `node` (node.go lines 176-190): whether
`n.cmd` holds a started process (`n.cmd != nil && n.cmd.Process != nil`),
and the two discovered addresses.  `config`, `nodeNum`, stream handles and
the wait group are not needed by the claims. -/
structure Node where
  cmdSet : Bool
  p2pAddr : String
  rpcAddr : String
deriving DecidableEq, Repr

/-- A node as built by `newNode` (node.go lines 201-207): no process handle,
both addresses empty. -/
def newNode : Node := ⟨false, "", ""⟩

/-- Outcomes of the external calls `node.stop` makes:
`isWindows` is `runtime.GOOS == "windows"`, the four error slots are the
results of `config.pipeRX.close()`, `Process.Signal`, `cmd.Wait()` and
`config.pipeTX.close()`. -/
structure StopEnv where
  isWindows : Bool
  pipeRXCloseErr : Option Err
  signalErr : Option Err
  cmdWaitErr : Option Err
  pipeTXCloseErr : Option Err
deriving DecidableEq, Repr

/-- Result of `node.stop`: the node afterwards, the returned error, and the
trace of actions performed. -/
structure StopRes where
  node : Node
  err : Option Err
  trace : List Act
deriving DecidableEq, Repr

/-- `node.stop` (node.go lines 340-388).  If the node holds no started
process it returns `nil` at once (lines 344-348).  Otherwise it closes the
`pipeRX` pair (line 351); only if that close errors does it send a signal —
`os.Kill` on Windows, `os.Interrupt` elsewhere (lines 355-366), logging any
signal error.  It then waits for the wait group (line 371), waits for the
process (line 375, error logged), closes the `pipeTX` pair (line 381, error
logged), clears `n.cmd` (line 386) and returns `nil`. -/
def nodeStop (n : Node) (env : StopEnv) : StopRes :=
  if n.cmdSet then
    let sig := if env.isWindows then Sig.kill else Sig.interrupt
    let sigTrace : List Act :=
      match env.pipeRXCloseErr with
      | none => []
      | some _ => [Act.sendSignal sig]
    ⟨{ n with cmdSet := false }, none,
      Act.closeRX :: sigTrace ++ [Act.wgWait, Act.cmdWait, Act.closeTX, Act.clearCmd]⟩
  else
    ⟨n, none, []⟩

/-- The error values `node.start` can return:
`os e` is a raw error returned unchanged (from `StderrPipe`/`StdoutPipe`),
`execFail cause` is `fmt.Errorf("%w: %v", errDcrdCmdExec, err)` — it wraps
the sentinel `errDcrdCmdExec` (node.go line 27) —, and `ctxDone cause` is
`fmt.Errorf("context done while waiting for addrs: %v", ctx.Err())`. -/
inductive ErrVal
  | os (e : Err)
  | execFail (cause : Err)
  | ctxDone (cause : Err)
deriving DecidableEq, Repr

/-- Whether an error value wraps the sentinel `errDcrdCmdExec` in the
`errors.Is` sense: only `execFail` does, since it is built with `%w`. -/
def ErrVal.wrapsErrDcrdCmdExec : ErrVal → Bool
  | .execFail _ => true
  | .os _ => false
  | .ctxDone _ => false

/-- Outcomes of the external calls `node.start` makes: the results of
`cmd.StderrPipe()`, `cmd.StdoutPipe()` and `cmd.Start()`; whether the
`select` at node.go lines 322-332 takes the `ctx.Done()` branch (with
`ctxErr` the value of `ctx.Err()` there); the two decoded IPC streams; and
the environment of the `stop` call made on cancellation. -/
structure StartEnv where
  stderrPipeErr : Option Err
  stdoutPipeErr : Option Err
  execErr : Option Err
  ctxDoneFirst : Bool
  ctxErr : Err
  txMsgs : List IPCMsg
  rxMsgs : List IPCMsg
  stopEnv : StopEnv
deriving DecidableEq, Repr

/-- Result of a returning `node.start` call: the node afterwards, the
returned error, the action trace, and whether `n.stop()` was invoked
(node.go line 324). -/
structure StartRes where
  node : Node
  err : Option ErrVal
  trace : List Act
  stopInvoked : Bool
deriving DecidableEq, Repr

/-- A `node.start` call either returns or blocks forever (the `select` at
node.go lines 322-332 when the context never fires and the IPC goroutine
never sees both addresses). -/
inductive StartOutcome
  | returns (r : StartRes)
  | blocks
deriving DecidableEq, Repr

/-- `node.start` (node.go lines 212-335).
* `cmd.StderrPipe()` error: returned unchanged, nothing spawned
  (lines 220-223).
* `cmd.StdoutPipe()` error: returned unchanged; the stderr drain was
  already registered and spawned (lines 224-250).
* `cmd.Start()` error: by then both drains and the IPC goroutine are
  spawned; `start` waits on the wait group, closes the `pipeTX` then
  `pipeRX` pairs and returns the wrapped exec error (lines 308-318).
* context done before both addresses: `n.stop()` is invoked and a
  `ctxDone` error is returned (lines 322-328).
* both addresses seen: they are recorded on the node and `nil` is
  returned (lines 329-334). -/
def nodeStart (n : Node) (env : StartEnv) : StartOutcome :=
  match env.stderrPipeErr with
  | some e => .returns ⟨n, some (.os e), [], false⟩
  | none =>
    let tr1 : List Act := [.wgAdd .stderrDrain, .spawn .stderrDrain]
    match env.stdoutPipeErr with
    | some e => .returns ⟨n, some (.os e), tr1, false⟩
    | none =>
      let tr2 := tr1 ++ [.wgAdd .stdoutDrain, .spawn .stdoutDrain, .spawn .ipcEvents]
      match env.execErr with
      | some e =>
        .returns ⟨n, some (.execFail e),
          tr2 ++ [.cmdStart false, .wgWait, .closeTX, .closeRX], false⟩
      | none =>
        let n1 := { n with cmdSet := true }
        let tr3 := tr2 ++ [.cmdStart true, .setCmd]
        if env.ctxDoneFirst then
          let sr := nodeStop n1 env.stopEnv
          .returns ⟨sr.node, some (.ctxDone env.ctxErr), tr3 ++ sr.trace, true⟩
        else
          let run := ipcTask env.txMsgs env.rxMsgs
          if run.signaled then
            .returns ⟨{ n1 with p2pAddr := run.st.p2pAddr, rpcAddr := run.st.rpcAddr },
              none, tr3 ++ [.setAddrs run.st.p2pAddr run.st.rpcAddr], false⟩
          else
            .blocks

/-- The `StartRes` of a returning outcome (a placeholder for `blocks`). -/
def startResOrDummy (o : StartOutcome) : StartRes :=
  match o with
  | .returns r => r
  | .blocks => ⟨newNode, none, [], false⟩

/-- A string of the `host:port` shape: non-empty and containing a colon. -/
def isHostPort (s : String) : Bool :=
  s != "" && s.data.contains ':'

/-- The fields of `nodeConfig` (node.go lines 31-57) consumed by
`arguments()`.  The remaining fields (`rpcConnect` aside: path to the
binary, endpoint, certificate bytes, pipe pairs, directory prefix) do not
appear in the argument list and are omitted. -/
structure NodeConfig where
  rpcUser : String
  rpcPass : String
  listen : String
  rpcListen : String
  rpcConnect : String
  dataDir : String
  logDir : String
  profile : String
  debugLevel : String
  extra : List String
  certFile : String
  keyFile : String
deriving DecidableEq, Repr

/-- `nodeConfig.arguments` (node.go lines 107-160), written as the
concatenation of the successive appends of the source.  `osArgs` stands for
what `appendOSNodeArgs` (line 155) adds.  Modelled from the spec:
`appendOSNodeArgs` is the platform-specific shim, absent from the sources
at hand, that appends the encodings of the two IPC pipe file descriptors as
child-visible arguments; per the spec it only appends to the list. -/
def NodeConfig.arguments (n : NodeConfig) (osArgs : List String) : List String :=
  (if n.rpcUser ≠ "" then ["--rpcuser=" ++ n.rpcUser] else []) ++
  (if n.rpcPass ≠ "" then ["--rpcpass=" ++ n.rpcPass] else []) ++
  (if n.listen ≠ "" then ["--listen=" ++ n.listen] else []) ++
  (if n.rpcListen ≠ "" then ["--rpclisten=" ++ n.rpcListen] else []) ++
  (if n.rpcConnect ≠ "" then ["--rpcconnect=" ++ n.rpcConnect] else []) ++
  ["--rpccert=" ++ n.certFile, "--rpckey=" ++ n.keyFile, "--txindex"] ++
  (if n.dataDir ≠ "" then ["--datadir=" ++ n.dataDir] else []) ++
  (if n.logDir ≠ "" then ["--logdir=" ++ n.logDir] else []) ++
  (if n.profile ≠ "" then ["--profile=" ++ n.profile] else []) ++
  (if n.debugLevel ≠ "" then ["--debuglevel=" ++ n.debugLevel] else []) ++
  ["--allowunsyncedmining"] ++ osArgs ++ ["--boundaddrevents"] ++ n.extra

/-- Outcomes of the external calls `genCertPair` makes: the result of
`certgen.NewTLSCertPair` and of the two `os.WriteFile` calls. -/
structure CertEnv where
  genErr : Option Err
  certWriteErr : Option Err
  keyWriteErr : Option Err
deriving DecidableEq, Repr

/-- Filesystem actions performed by `genCertPair`: a `WriteFile` with its
path, permission mode and success flag, and a `Remove`. -/
inductive FSAction
  | writeFile (path : String) (mode : Nat) (ok : Bool)
  | removeFile (path : String)
deriving DecidableEq, Repr

/-- Result of `genCertPair`: the returned error and the trace of
filesystem actions. -/
structure CertRes where
  err : Option Err
  trace : List FSAction
deriving DecidableEq, Repr

/-- `genCertPair` (node.go lines 416-435): generate the pair (error
returned unchanged), write the certificate with mode `0644` (error returned
unchanged), write the key with mode `0600`; if the key write fails, remove
the certificate file and return the error. -/
def genCertPair (certFile keyFile : String) (env : CertEnv) : CertRes :=
  match env.genErr with
  | some e => ⟨some e, []⟩
  | none =>
    match env.certWriteErr with
    | some e => ⟨some e, [.writeFile certFile 0o644 false]⟩
    | none =>
      match env.keyWriteErr with
      | some e => ⟨some e,
          [.writeFile certFile 0o644 true, .writeFile keyFile 0o600 false,
           .removeFile certFile]⟩
      | none => ⟨none,
          [.writeFile certFile 0o644 true, .writeFile keyFile 0o600 true]⟩

/-- Whether a file at `p` exists after a trace of filesystem actions,
starting from a state in which it does not. -/
def fileRemains (p : String) (tr : List FSAction) : Bool :=
  tr.foldl
    (fun st a =>
      match a with
      | .writeFile q _ ok => if q = p then ok else st
      | .removeFile q => if q = p then false else st)
    false

/-- The argument list generated from the configuration alone, the
caller-supplied `extra` arguments excluded: the part of
`nodeConfig.arguments` built by node.go lines 108-157. -/
def NodeConfig.generatedArgs (n : NodeConfig) (osArgs : List String) : List String :=
  (if n.rpcUser ≠ "" then ["--rpcuser=" ++ n.rpcUser] else []) ++
  (if n.rpcPass ≠ "" then ["--rpcpass=" ++ n.rpcPass] else []) ++
  (if n.listen ≠ "" then ["--listen=" ++ n.listen] else []) ++
  (if n.rpcListen ≠ "" then ["--rpclisten=" ++ n.rpcListen] else []) ++
  (if n.rpcConnect ≠ "" then ["--rpcconnect=" ++ n.rpcConnect] else []) ++
  ["--rpccert=" ++ n.certFile, "--rpckey=" ++ n.keyFile, "--txindex"] ++
  (if n.dataDir ≠ "" then ["--datadir=" ++ n.dataDir] else []) ++
  (if n.logDir ≠ "" then ["--logdir=" ++ n.logDir] else []) ++
  (if n.profile ≠ "" then ["--profile=" ++ n.profile] else []) ++
  (if n.debugLevel ≠ "" then ["--debuglevel=" ++ n.debugLevel] else []) ++
  ["--allowunsyncedmining"] ++ osArgs ++ ["--boundaddrevents"]

/-! ### Concrete inputs used by counterexamples and witnesses -/

/-- A TX stream that carries both bound-address events and then one further
message the address loop never consumes. -/
def cexTxC2 : List IPCMsg :=
  [.boundP2P "127.0.0.1:19108", .boundRPC "127.0.0.1:19109", .other]

/-- A stop environment in which every external call succeeds, on a
non-Windows platform. -/
def okStopEnv : StopEnv := ⟨false, none, none, none, none⟩

/-- A start environment in which `cmd.Start` fails ("exec format error"),
as for a missing or malformed `dcrd` binary. -/
def cexEnvC1 : StartEnv :=
  ⟨none, none, some "exec format error", false, "", [], [], okStopEnv⟩

/-- A start environment in which the child launches but the caller's
context is cancelled before both addresses are discovered. -/
def wEnvC3 : StartEnv :=
  ⟨none, none, none, true, "context canceled", [], [], okStopEnv⟩

/-- A start environment in which the child launches and reports both bound
addresses before the context is done. -/
def wEnvC7 : StartEnv :=
  ⟨none, none, none, false, "", cexTxC2, [], okStopEnv⟩

/-- A start environment in which `cmd.StdoutPipe` fails. -/
def wEnvC10 : StartEnv :=
  ⟨none, some "pipe: too many open files", none, false, "", [], [], okStopEnv⟩

/-- A configuration with every optional field populated. -/
def wCfgC8 : NodeConfig :=
  ⟨"user", "pass", "127.0.0.1:0", "127.0.0.1:0", "", "/tmp/h/data", "/tmp/h/logs",
   "", "debug", ["--miningaddr=Ss"], "/tmp/h/rpc.cert", "/tmp/h/rpc.key"⟩

/-! ### Helper lemmas -/

/-- If the address loop signals, both resulting addresses are non-empty, and
each one either was already in the starting state or was carried by one of
the consumed messages: any predicate holding of all addresses of the stream
and of the non-empty starting addresses holds of the result. -/
theorem addrLoop_signaled_inv (P : String → Prop) :
    ∀ (msgs : List IPCMsg) (st st' : AddrState) (c c' : Nat),
      (∀ a ∈ streamAddrs msgs, P a) →
      (st.p2pAddr = "" ∨ P st.p2pAddr) →
      (st.rpcAddr = "" ∨ P st.rpcAddr) →
      addrLoop st msgs c = .signaled st' c' →
      (st'.p2pAddr ≠ "" ∧ P st'.p2pAddr) ∧ (st'.rpcAddr ≠ "" ∧ P st'.rpcAddr) := by
  intro msgs
  induction msgs with
  | nil =>
    intro st st' c c' _ _ _ h
    simp [addrLoop] at h
  | cons m rest ih =>
    intro st st' c c' hmsgs hp hr h
    have hrest : ∀ a ∈ streamAddrs rest, P a := by
      intro a ha
      exact hmsgs a (by simp [streamAddrs]; right; exact ha)
    have hp2 : (applyMsg st m).p2pAddr = "" ∨ P (applyMsg st m).p2pAddr := by
      cases m with
      | boundP2P a =>
        right
        exact hmsgs a (by simp [streamAddrs, msgAddrs])
      | boundRPC a => simpa [applyMsg] using hp
      | other => simpa [applyMsg] using hp
    have hr2 : (applyMsg st m).rpcAddr = "" ∨ P (applyMsg st m).rpcAddr := by
      cases m with
      | boundP2P a => simpa [applyMsg] using hr
      | boundRPC a =>
        right
        exact hmsgs a (by simp [streamAddrs, msgAddrs])
      | other => simpa [applyMsg] using hr
    rw [addrLoop] at h
    split at h
    · rename_i hcond
      cases h
      refine ⟨⟨hcond.1, ?_⟩, ⟨hcond.2, ?_⟩⟩
      · rcases hp2 with h0 | h0
        · exact absurd h0 hcond.1
        · exact h0
      · rcases hr2 with h0 | h0
        · exact absurd h0 hcond.2
        · exact h0
    · exact ih (applyMsg st m) st' (c + 1) c' hrest hp2 hr2 h

/-! ### Claims -/

/-- C2, counterexample: with `cexTxC2` on `pipeTX.r` and an empty
`pipeRX.r` stream, the address loop signals after two reads; were the drain
performed on "the same receive pipe that carried the bound-address events"
(`pipeTX.r`), it would perform two further reads there (the `.other`
message and the end-of-stream) and none on `pipeRX.r`.  The code does the
opposite: zero drain reads on `pipeTX.r` and one (the terminal error) on
`pipeRX.r`. -/
theorem ipcTask_drain_not_same_pipe_cex :
    (ipcTask cexTxC2 []).signaled = true ∧
    (ipcTask cexTxC2 []).txReads = 2 ∧
    (ipcTask cexTxC2 []).drainTxReads = 0 ∧
    (ipcTask cexTxC2 []).drainRxReads = 1 ∧
    ¬ ((ipcTask cexTxC2 []).drainTxReads = 2 ∧ (ipcTask cexTxC2 []).drainRxReads = 0) := by
  decide

/-- C2, amended: in every execution of the IPC task in which both
bound-address events are seen, the task continues reading and discarding
framed messages from the read end of the *other* IPC pipe pair
(`config.pipeRX.r`, the pair whose closure signals shutdown) until that
read reports an error or end-of-stream, and performs no further read on the
pipe that carried the bound-address events. -/
theorem ipcTask_drains_pipeRX (txMsgs rxMsgs : List IPCMsg)
    (h : (ipcTask txMsgs rxMsgs).signaled = true) :
    (ipcTask txMsgs rxMsgs).drainRxReads = rxMsgs.length + 1 ∧
    (ipcTask txMsgs rxMsgs).drainTxReads = 0 := by
  unfold ipcTask at *
  cases haddr : addrLoop ⟨"", ""⟩ txMsgs 0 <;> simp [haddr] at h ⊢

/-- C2, witness for the amended theorem at a concrete pair of streams. -/
theorem ipcTask_drains_pipeRX_witness :
    (ipcTask cexTxC2 [.other]).drainRxReads = 2 ∧
    (ipcTask cexTxC2 [.other]).drainTxReads = 0 :=
  ipcTask_drains_pipeRX cexTxC2 [.other] (by decide)

/-- C5: `stop` always returns `nil`: immediately so when no process was
ever successfully started; internal teardown failures (any `StopEnv`) are
absorbed; after a completed `stop` the process handle is cleared, so a
second `stop` returns `nil` as well and performs no teardown action. -/
theorem nodeStop_nil_and_idempotent (n : Node) (env env2 : StopEnv) :
    (nodeStop n env).err = none ∧
    (n.cmdSet = false → nodeStop n env = ⟨n, none, []⟩) ∧
    (nodeStop n env).node.cmdSet = false ∧
    nodeStop (nodeStop n env).node env2 = ⟨(nodeStop n env).node, none, []⟩ := by
  cases hc : n.cmdSet <;> simp [nodeStop, hc]

/-- C5, witness at a concrete node and environments: a started node with a
failing `pipeRX` close, stopped twice. -/
theorem nodeStop_nil_and_idempotent_witness :
    (nodeStop ⟨true, "a", "b"⟩ ⟨false, some "bad fd", none, none, none⟩).err = none ∧
    ((⟨true, "a", "b"⟩ : Node).cmdSet = false →
      nodeStop ⟨true, "a", "b"⟩ ⟨false, some "bad fd", none, none, none⟩ =
        ⟨⟨true, "a", "b"⟩, none, []⟩) ∧
    (nodeStop ⟨true, "a", "b"⟩ ⟨false, some "bad fd", none, none, none⟩).node.cmdSet = false ∧
    nodeStop (nodeStop ⟨true, "a", "b"⟩ ⟨false, some "bad fd", none, none, none⟩).node
        ⟨false, none, none, none, none⟩ =
      ⟨(nodeStop ⟨true, "a", "b"⟩ ⟨false, some "bad fd", none, none, none⟩).node, none, []⟩ :=
  nodeStop_nil_and_idempotent ⟨true, "a", "b"⟩ ⟨false, some "bad fd", none, none, none⟩
    ⟨false, none, none, none, none⟩

/-- C6: on a started node, `stop` first attempts graceful shutdown by
closing the termination-signal pipe pair (`pipeRX`, the first action of the
trace); an OS signal is sent only if that close returned an error, and the
signal sent is `kill` on Windows and `interrupt` on every other
platform. -/
theorem nodeStop_graceful_then_signal (n : Node) (env : StopEnv)
    (h : n.cmdSet = true) :
    (nodeStop n env).trace.head? = some Act.closeRX ∧
    (env.pipeRXCloseErr = none → ∀ s, Act.sendSignal s ∉ (nodeStop n env).trace) ∧
    (∀ s, Act.sendSignal s ∈ (nodeStop n env).trace →
      env.pipeRXCloseErr ≠ none ∧
      s = (if env.isWindows then Sig.kill else Sig.interrupt)) ∧
    (env.pipeRXCloseErr ≠ none →
      Act.sendSignal (if env.isWindows then Sig.kill else Sig.interrupt) ∈
        (nodeStop n env).trace) := by
  rcases env with ⟨w, rxErr, sErr, wErr, txErr⟩
  cases rxErr <;> cases w <;> simp [nodeStop, h]

/-- C6, witness: a started node on a non-Windows platform whose `pipeRX`
close fails, so `stop` escalates with an interrupt signal. -/
theorem nodeStop_graceful_then_signal_witness :
    (nodeStop ⟨true, "", ""⟩ ⟨false, some "close failed", none, none, none⟩).trace.head? =
      some Act.closeRX ∧
    Act.sendSignal Sig.interrupt ∈
      (nodeStop ⟨true, "", ""⟩ ⟨false, some "close failed", none, none, none⟩).trace := by
  have h := nodeStop_graceful_then_signal ⟨true, "", ""⟩
    ⟨false, some "close failed", none, none, none⟩ rfl
  exact ⟨h.1, by simpa using h.2.2.2 (by simp)⟩

/-- C8: for every configuration and platform argument list, `arguments()`
always contains the certificate path, key path, `--txindex`,
`--allowunsyncedmining` and `--boundaddrevents` flags; it contains the
credential and listen-address flags whenever the corresponding fields are
non-empty; and the caller-supplied `extra` arguments are the final elements
of the list, after every generated argument. -/
theorem arguments_contents_and_extras_last (n : NodeConfig) (osArgs : List String) :
    ("--rpccert=" ++ n.certFile) ∈ n.arguments osArgs ∧
    ("--rpckey=" ++ n.keyFile) ∈ n.arguments osArgs ∧
    "--txindex" ∈ n.arguments osArgs ∧
    "--allowunsyncedmining" ∈ n.arguments osArgs ∧
    "--boundaddrevents" ∈ n.arguments osArgs ∧
    (n.rpcUser ≠ "" → ("--rpcuser=" ++ n.rpcUser) ∈ n.arguments osArgs) ∧
    (n.rpcPass ≠ "" → ("--rpcpass=" ++ n.rpcPass) ∈ n.arguments osArgs) ∧
    (n.listen ≠ "" → ("--listen=" ++ n.listen) ∈ n.arguments osArgs) ∧
    (n.rpcListen ≠ "" → ("--rpclisten=" ++ n.rpcListen) ∈ n.arguments osArgs) ∧
    n.arguments osArgs = n.generatedArgs osArgs ++ n.extra := by
  refine ⟨?_, ?_, ?_, ?_, ?_, ?_, ?_, ?_, ?_, ?_⟩ <;>
    simp [NodeConfig.arguments, NodeConfig.generatedArgs, List.append_assoc]
  all_goals intro h
  all_goals simp [h]

/-- C8, witness at a concrete configuration with the optional fields
populated. -/
theorem arguments_contents_and_extras_last_witness :
    ("--rpccert=" ++ wCfgC8.certFile) ∈ wCfgC8.arguments ["--pipetx=3"] ∧
    ("--rpcuser=" ++ wCfgC8.rpcUser) ∈ wCfgC8.arguments ["--pipetx=3"] ∧
    ("--listen=" ++ wCfgC8.listen) ∈ wCfgC8.arguments ["--pipetx=3"] ∧
    wCfgC8.arguments ["--pipetx=3"] =
      wCfgC8.generatedArgs ["--pipetx=3"] ++ wCfgC8.extra := by
  have h := arguments_contents_and_extras_last wCfgC8 ["--pipetx=3"]
  exact ⟨h.1, h.2.2.2.2.2.1 (by decide), h.2.2.2.2.2.2.2.1 (by decide),
    h.2.2.2.2.2.2.2.2.2⟩

/-- C9: every certificate write performed by `genCertPair` uses mode `0644`
and every key write uses mode `0600`; and when the key write fails, the
call returns that error and the already-written certificate file does not
remain on disk (it is removed). -/
theorem genCertPair_modes_and_cleanup (certFile keyFile : String) (env : CertEnv) :
    (∀ p m b, FSAction.writeFile p m b ∈ (genCertPair certFile keyFile env).trace →
      (p = certFile ∧ m = 0o644) ∨ (p = keyFile ∧ m = 0o600)) ∧
    (env.genErr = none → env.certWriteErr = none →
      ∀ e, env.keyWriteErr = some e →
        (genCertPair certFile keyFile env).err = some e ∧
        fileRemains certFile (genCertPair certFile keyFile env).trace = false) := by
  rcases env with ⟨g, c, k⟩
  cases g <;> cases c <;> cases k <;>
    simp [genCertPair, fileRemains]
  all_goals tauto

/-- C9, witness: a run in which generation and the certificate write
succeed but the key write fails. -/
theorem genCertPair_modes_and_cleanup_witness :
    (genCertPair "/tmp/h/rpc.cert" "/tmp/h/rpc.key" ⟨none, none, some "disk full"⟩).err =
      some "disk full" ∧
    fileRemains "/tmp/h/rpc.cert"
      (genCertPair "/tmp/h/rpc.cert" "/tmp/h/rpc.key" ⟨none, none, some "disk full"⟩).trace =
      false := by
  have h := genCertPair_modes_and_cleanup "/tmp/h/rpc.cert" "/tmp/h/rpc.key"
    ⟨none, none, some "disk full"⟩
  exact h.2 rfl rfl "disk full" rfl

/-- C1, counterexample: on a `start` call whose `cmd.Start` fails, the
returned error is non-nil and the IPC-event task was spawned, yet it is not
among the tasks joined before `start` returns: it is never registered in
the wait group (node.go line 278 has no `wg.Add`), and the failure path
only waits on the wait group (line 314), so nothing synchronises with the
IPC-event task's termination before `start` returns. -/
theorem start_fail_ipc_task_not_joined_cex :
    (startResOrDummy (nodeStart newNode cexEnvC1)).err ≠ none ∧
    BgTask.ipcEvents ∈ spawnedTasks (startResOrDummy (nodeStart newNode cexEnvC1)).trace ∧
    BgTask.ipcEvents ∉ joinedTasks (startResOrDummy (nodeStart newNode cexEnvC1)).trace ∧
    nodeStart newNode cexEnvC1 ≠ .blocks := by
  decide

/-- C1, amended: for every `start` call that fails after both stdio pipes
were wired (the OS exec fails, or the context is cancelled before both
addresses are discovered), by the time `start` returns the two stream-drain
tasks — the wait-group members — are joined and both IPC pipe pairs have
been closed; the IPC-event task, however, is spawned but never joined (its
termination is only triggered asynchronously by the pipe closes), so it may
outlive the failed `start` call. -/
theorem start_failure_joins_wg_tasks_closes_pipes (env : StartEnv) (r : StartRes)
    (h1 : env.stderrPipeErr = none) (h2 : env.stdoutPipeErr = none)
    (h3 : env.execErr ≠ none ∨ env.ctxDoneFirst = true)
    (h : nodeStart newNode env = .returns r) :
    r.err ≠ none ∧
    joinedTasks r.trace = [.stderrDrain, .stdoutDrain] ∧
    Act.closeTX ∈ r.trace ∧
    Act.closeRX ∈ r.trace ∧
    BgTask.ipcEvents ∈ spawnedTasks r.trace ∧
    BgTask.ipcEvents ∉ joinedTasks r.trace := by
  rcases env with ⟨se, so, ex, cd, ce, tx, rx, stE⟩
  dsimp at h1 h2 h3
  subst h1
  subst h2
  rcases stE with ⟨w, rxe, sge, we, txe⟩
  cases ex with
  | some e =>
    simp [nodeStart] at h
    subst h
    exact ⟨by simp, by simp [joinedTasks, wgTasks], by simp, by simp,
      by simp [spawnedTasks], by simp [joinedTasks, wgTasks]⟩
  | none =>
    rcases h3 with h3 | h3
    · exact absurd rfl h3
    · subst h3
      cases rxe <;> cases w <;>
        (simp [nodeStart, nodeStop] at h
         subst h
         exact ⟨by simp, by simp [joinedTasks, wgTasks], by simp, by simp,
           by simp [spawnedTasks], by simp [joinedTasks, wgTasks]⟩)

/-- C1, witness for the amended theorem: a cancelled `start` (child
launched, context done before the addresses arrived). -/
theorem start_failure_joins_wg_tasks_closes_pipes_witness :
    (startResOrDummy (nodeStart newNode wEnvC3)).err ≠ none ∧
    joinedTasks (startResOrDummy (nodeStart newNode wEnvC3)).trace =
      [BgTask.stderrDrain, BgTask.stdoutDrain] ∧
    Act.closeTX ∈ (startResOrDummy (nodeStart newNode wEnvC3)).trace ∧
    Act.closeRX ∈ (startResOrDummy (nodeStart newNode wEnvC3)).trace := by
  have h := start_failure_joins_wg_tasks_closes_pipes wEnvC3
    (startResOrDummy (nodeStart newNode wEnvC3)) rfl rfl (Or.inr rfl) (by decide)
  exact ⟨h.1, h.2.1, h.2.2.1, h.2.2.2.1⟩

/-- C3: when the child launches but the context is done before both
addresses are discovered, `start` invokes the stop sequence (whose whole
trace is a suffix of `start`'s) and returns a non-nil error built from the
context's error. -/
theorem start_ctxDone_invokes_stop_returns_ctx_error (env : StartEnv) (r : StartRes)
    (h1 : env.stderrPipeErr = none) (h2 : env.stdoutPipeErr = none)
    (h3 : env.execErr = none) (h4 : env.ctxDoneFirst = true)
    (h : nodeStart newNode env = .returns r) :
    r.stopInvoked = true ∧
    r.err = some (.ctxDone env.ctxErr) ∧
    r.err ≠ none ∧
    ∃ pre, r.trace =
      pre ++ (nodeStop { newNode with cmdSet := true } env.stopEnv).trace := by
  rcases env with ⟨se, so, ex, cd, ce, tx, rx, stE⟩
  dsimp at h1 h2 h3 h4 ⊢
  subst h1
  subst h2
  subst h3
  subst h4
  simp [nodeStart] at h
  subst h
  refine ⟨rfl, rfl, by simp, ⟨[.wgAdd .stderrDrain, .spawn .stderrDrain,
    .wgAdd .stdoutDrain, .spawn .stdoutDrain, .spawn .ipcEvents,
    .cmdStart true, .setCmd], rfl⟩⟩

/-- C3, witness at a concrete cancelled run. -/
theorem start_ctxDone_invokes_stop_returns_ctx_error_witness :
    (startResOrDummy (nodeStart newNode wEnvC3)).stopInvoked = true ∧
    (startResOrDummy (nodeStart newNode wEnvC3)).err =
      some (.ctxDone "context canceled") := by
  have h := start_ctxDone_invokes_stop_returns_ctx_error wEnvC3
    (startResOrDummy (nodeStart newNode wEnvC3)) rfl rfl rfl rfl (by decide)
  exact ⟨h.1, h.2.1⟩

/-- C4: when the OS fails to exec the child binary, `start` first waits on
the wait group (joining the two output-draining tasks), then closes the
`pipeTX` and `pipeRX` pairs, and returns a non-nil error that wraps the
`errDcrdCmdExec` sentinel — the exact action trace below shows the
ordering. -/
theorem start_execFail_waits_closes_wraps (env : StartEnv) (e : Err) (r : StartRes)
    (h1 : env.stderrPipeErr = none) (h2 : env.stdoutPipeErr = none)
    (h3 : env.execErr = some e)
    (h : nodeStart newNode env = .returns r) :
    r.err = some (.execFail e) ∧
    (∀ v, r.err = some v → v.wrapsErrDcrdCmdExec = true) ∧
    r.err ≠ none ∧
    r.trace = [.wgAdd .stderrDrain, .spawn .stderrDrain, .wgAdd .stdoutDrain,
      .spawn .stdoutDrain, .spawn .ipcEvents, .cmdStart false, .wgWait,
      .closeTX, .closeRX] := by
  rcases env with ⟨se, so, ex, cd, ce, tx, rx, stE⟩
  dsimp at h1 h2 h3
  subst h1
  subst h2
  subst h3
  simp [nodeStart] at h
  subst h
  refine ⟨rfl, ?_, by simp, rfl⟩
  intro v hv
  cases hv
  rfl

/-- C4, witness at a concrete exec failure. -/
theorem start_execFail_waits_closes_wraps_witness :
    (startResOrDummy (nodeStart newNode cexEnvC1)).err =
      some (.execFail "exec format error") ∧
    Act.wgWait ∈ (startResOrDummy (nodeStart newNode cexEnvC1)).trace := by
  have h := start_execFail_waits_closes_wraps cexEnvC1 "exec format error"
    (startResOrDummy (nodeStart newNode cexEnvC1)) rfl rfl rfl (by decide)
  exact ⟨h.1, by rw [h.2.2.2]; decide⟩

/-- C7: starting from a freshly constructed node (both addresses empty),
any failed `start` leaves both addresses empty, and a successful `start`
assigns both together: they are non-empty, and any property holding of
every address carried by the TX stream — in particular the `host:port`
shape the external interface contract promises — holds of both. -/
theorem start_addrs_both_empty_or_both_set (env : StartEnv) (r : StartRes)
    (h : nodeStart newNode env = .returns r) :
    (r.err ≠ none → r.node.p2pAddr = "" ∧ r.node.rpcAddr = "") ∧
    (r.err = none →
      (r.node.p2pAddr ≠ "" ∧ r.node.rpcAddr ≠ "") ∧
      ∀ (P : String → Prop), (∀ a ∈ streamAddrs env.txMsgs, P a) →
        P r.node.p2pAddr ∧ P r.node.rpcAddr) := by
  rcases env with ⟨se, so, ex, cd, ce, tx, rx, stE⟩
  dsimp only
  cases se with
  | some e =>
    simp [nodeStart] at h
    subst h
    simp [newNode]
  | none =>
    cases so with
    | some e =>
      simp [nodeStart] at h
      subst h
      simp [newNode]
    | none =>
      cases ex with
      | some e =>
        simp [nodeStart] at h
        subst h
        simp [newNode]
      | none =>
        cases cd with
        | true =>
          simp [nodeStart, nodeStop, newNode] at h
          subst h
          simp [newNode]
        | false =>
          cases hs : (ipcTask tx rx).signaled with
          | false => simp [nodeStart, hs] at h
          | true =>
            simp [nodeStart, hs] at h
            subst h
            constructor
            · intro hne
              exact absurd rfl hne
            · intro _
              unfold ipcTask at hs ⊢
              cases haddr : addrLoop ⟨"", ""⟩ tx 0 with
              | failed st reads => rw [haddr] at hs; simp at hs
              | signaled st reads =>
                dsimp only
                constructor
                · have h0 := addrLoop_signaled_inv (fun _ => True) tx ⟨"", ""⟩ st 0 reads
                    (by simp) (Or.inl rfl) (Or.inl rfl) haddr
                  exact ⟨h0.1.1, h0.2.1⟩
                · intro P hP
                  have h0 := addrLoop_signaled_inv P tx ⟨"", ""⟩ st 0 reads hP
                    (Or.inl rfl) (Or.inl rfl) haddr
                  exact ⟨h0.1.2, h0.2.2⟩

/-- C7, witness: a successful run whose TX stream carries two `host:port`
addresses; both node addresses end up non-empty and of `host:port`
shape. -/
theorem start_addrs_both_empty_or_both_set_witness :
    (startResOrDummy (nodeStart newNode wEnvC7)).err = none ∧
    (startResOrDummy (nodeStart newNode wEnvC7)).node.p2pAddr ≠ "" ∧
    isHostPort (startResOrDummy (nodeStart newNode wEnvC7)).node.p2pAddr = true ∧
    isHostPort (startResOrDummy (nodeStart newNode wEnvC7)).node.rpcAddr = true := by
  have h := start_addrs_both_empty_or_both_set wEnvC7
    (startResOrDummy (nodeStart newNode wEnvC7)) (by decide)
  have h2 := h.2 (by decide)
  have h3 := h2.2 (fun a => isHostPort a = true) (by decide)
  exact ⟨by decide, h2.1.1, h3.1, h3.2⟩

/-- C10: if `start` fails while wiring the child's stderr or stdout capture
(the pipe call returns an error), that error is returned as is, the process
was never launched (no `cmdStart` action, process handle still nil), and a
subsequent `stop` returns `nil` at once, performing no teardown action. -/
theorem start_stdio_pipe_failure_no_process (env : StartEnv) (e : Err)
    (senv : StopEnv) (r : StartRes)
    (hcase : env.stderrPipeErr = some e ∨
      (env.stderrPipeErr = none ∧ env.stdoutPipeErr = some e))
    (h : nodeStart newNode env = .returns r) :
    r.err = some (.os e) ∧
    r.node.cmdSet = false ∧
    (∀ b, Act.cmdStart b ∉ r.trace) ∧
    nodeStop r.node senv = ⟨r.node, none, []⟩ := by
  rcases env with ⟨se, so, ex, cd, ce, tx, rx, stE⟩
  dsimp at hcase
  rcases hcase with hse | ⟨hse, hso⟩
  · subst hse
    simp [nodeStart] at h
    subst h
    exact ⟨rfl, rfl, by simp, by simp [nodeStop, newNode]⟩
  · subst hse
    subst hso
    simp [nodeStart] at h
    subst h
    exact ⟨rfl, rfl, by simp, by simp [nodeStop, newNode]⟩

/-- C10, witness: a concrete `StdoutPipe` failure followed by a `stop`. -/
theorem start_stdio_pipe_failure_no_process_witness :
    (startResOrDummy (nodeStart newNode wEnvC10)).err =
      some (.os "pipe: too many open files") ∧
    nodeStop (startResOrDummy (nodeStart newNode wEnvC10)).node okStopEnv =
      ⟨(startResOrDummy (nodeStart newNode wEnvC10)).node, none, []⟩ := by
  have h := start_stdio_pipe_failure_no_process wEnvC10 "pipe: too many open files"
    okStopEnv (startResOrDummy (nodeStart newNode wEnvC10))
    (Or.inr ⟨rfl, rfl⟩) (by decide)
  exact ⟨h.1, h.2.2.2⟩

end DcrdTest
